import Mathlib

/-!
Verification of the HealthPredict client core: the session lifecycle
(`lib/auth-context.tsx`) and the prediction-history analytics aggregation
(`app/analytics/page.tsx`, `app/dashboard/page.tsx` dashboard and history
pages), shallowly embedded in Lean.

Numbers carried by records (`overall_confidence`, `confidence_score`) are
modelled as rationals; timestamps as rationals (days), so all derived
figures are exact.  Asynchronous handlers are modelled as pure state
transformers taking the network response as an explicit argument.
-/

set_option autoImplicit false

/-- A disease candidate, from the `Disease` interface of the history page. -/
structure Disease where
  disease_name : String
  confidence_score : ℚ
  deriving DecidableEq, Repr

/-- A prediction record as the history page types it (`Prediction` interface):
`predicted_diseases` is a plain array there. -/
structure Prediction where
  id : String
  predicted_diseases : List Disease
  overall_confidence : ℚ
  risk_level : String
  created_at : ℚ
  deriving DecidableEq, Repr

/-- A raw history record as the analytics page consumes it: there the code
reads `pred.predicted_diseases?...` with optional chaining, so the field may
be absent, which we model with `Option`. -/
structure AnalyticsRecord where
  predicted_diseases : Option (List Disease)
  overall_confidence : ℚ
  deriving DecidableEq, Repr

/-- `diseaseCount[name] = (diseaseCount[name] || 0) + 1` on a JS object:
increment in place if the key exists, else append it (JS objects preserve
key insertion order, which `Object.entries` later replays). -/
def bumpCount : List (String × Nat) → String → List (String × Nat)
  | [], name => [(name, 1)]
  | (k, v) :: rest, name =>
      if k = name then (k, v + 1) :: rest else (k, v) :: bumpCount rest name

/-- The disease-frequency object built by `processAnalyticsData`:
`history.forEach(pred => pred.predicted_diseases?.forEach(disease =>
diseaseCount[disease.disease_name] = (diseaseCount[disease.disease_name] || 0) + 1))`. -/
def diseaseCount (history : List AnalyticsRecord) : List (String × Nat) :=
  history.foldl
    (fun m pred =>
      match pred.predicted_diseases with
      | none => m
      | some ds => ds.foldl (fun m2 d => bumpCount m2 d.disease_name) m)
    []

/-- `confidenceTrend.push(pred.overall_confidence * 100)` over the history. -/
def confidenceTrend (history : List AnalyticsRecord) : List ℚ :=
  history.map (fun pred => pred.overall_confidence * 100)

/-- One step of the (stable, ES2019+) JS `sort(([, a], [, b]) => b - a)`:
insert an entry after every already-placed entry with a count at least as
large, so equal counts keep their first-seen order. -/
def insertDesc (x : String × Nat) : List (String × Nat) → List (String × Nat)
  | [] => [x]
  | y :: ys => if x.2 ≤ y.2 then y :: insertDesc x ys else x :: y :: ys

/-- Stable descending-by-count sort of the `Object.entries` list. -/
def sortDescByCount (l : List (String × Nat)) : List (String × Nat) :=
  l.foldl (fun acc x => insertDesc x acc) []

/-- `topDiseases = Object.entries(diseaseCount).sort(([, a], [, b]) => b - a).slice(0, 10)`. -/
def topDiseases (history : List AnalyticsRecord) : List (String × Nat) :=
  (sortDescByCount (diseaseCount history)).take 10

/-- `avgConfidence = confidenceTrend.length > 0 ? confidenceTrend.reduce((a, b) => a + b, 0) / confidenceTrend.length : 0`. -/
def avgConfidence (history : List AnalyticsRecord) : ℚ :=
  let ct := confidenceTrend history
  if 0 < ct.length then ct.foldl (· + ·) 0 / (ct.length : ℚ) else 0

/-- The record returned by `processAnalyticsData` (the `diseaseCount` field
of the source return value is `diseaseCount` above verbatim). -/
structure ProcessedData where
  topDiseases : List (String × Nat)
  avgConfidence : ℚ
  totalPredictions : Nat
  deriving DecidableEq, Repr

/-- `processAnalyticsData(stats, history)` from `app/analytics/page.tsx`
(the `stats` argument is unused by the computation). -/
def processAnalyticsData (history : List AnalyticsRecord) : ProcessedData :=
  { topDiseases := topDiseases history
    avgConfidence := avgConfidence history
    totalPredictions := history.length }

/-- Spec-side counting of `topDiseases`, written to the spec's words:
frequency of `predictedDiseases[0].name` — the primary diagnosis only —
across all records.  Clearly distinct from `diseaseCount`, which tallies
every candidate of every record; the two are compared for claim C1. -/
def diseaseCountPrimarySpec (history : List AnalyticsRecord) : List (String × Nat) :=
  history.foldl
    (fun m pred =>
      match pred.predicted_diseases with
      | some (d :: _) => bumpCount m d.disease_name
      | _ => m)
    []

/-- Spec-side `topDiseases`: primary-only frequencies, sorted descending,
ties first-seen, top 10. -/
def topDiseasesPrimarySpec (history : List AnalyticsRecord) : List (String × Nat) :=
  (sortDescByCount (diseaseCountPrimarySpec history)).take 10

/-- Every disease name occurring in the history, one occurrence per
candidate per record, in record order (an absent list contributes nothing).
Used as the independent yardstick for the frequency counts. -/
def allDiseaseNames (history : List AnalyticsRecord) : List String :=
  (history.map (fun pred => (pred.predicted_diseases.getD []).map
    (fun d => d.disease_name))).flatten

/-- Plain occurrence count of a name in a list of names. -/
def countName : List String → String → Nat
  | [], _ => 0
  | n :: ns, k => (if n = k then 1 else 0) + countName ns k

/-- The four data points of the dashboard trend chart (`monthlyTrendData` in
`app/analytics/page.tsx`): `Math.floor((stats.predictions_this_month || 0) * w)`
for the fixed weights 0.2, 0.3, 0.25, 0.25.  For a count `m : Nat` the
floored products are exactly the truncating divisions below. -/
def monthlyTrendBuckets (predictions_this_month : Nat) : List Nat :=
  [predictions_this_month * 2 / 10,
   predictions_this_month * 3 / 10,
   predictions_this_month * 25 / 100,
   predictions_this_month * 25 / 100]

/-- Whether a timestamp `t` (in days) falls in bucket `i` of the spec's
partition of `[now - windowDays, now]` into `bucketCount` equal half-open
intervals; a point on a boundary belongs to the later bucket, and the right
endpoint `now` belongs to the last bucket. -/
def inTrendBucket (now windowDays : ℚ) (bucketCount i : Nat) (t : ℚ) : Bool :=
  let start := now - windowDays
  let width := windowDays / (bucketCount : ℚ)
  decide (start + (i : ℚ) * width ≤ t) &&
    (decide (t < start + ((i : ℚ) + 1) * width) ||
      (i + 1 == bucketCount && decide (t ≤ now)))

/-- Spec-side model, written to the spec's words, for comparison with the
source's `monthlyTrendBuckets`: `bucketTrend(records, windowDays, bucketCount)`
counts the records (given by their `createdAt` timestamps, in days) falling
in each of `bucketCount` equal-width half-open sub-intervals of
`[now - windowDays, now]`. -/
def bucketTrendSpec (createdAts : List ℚ) (now windowDays : ℚ)
    (bucketCount : Nat) : List Nat :=
  (List.range bucketCount).map
    (fun i => (createdAts.filter (inTrendBucket now windowDays bucketCount i)).length)

/-- Character-wise lowering standing in for JS `toLowerCase`. -/
def toLowerStr (s : String) : String := String.mk (s.toList.map Char.toLower)

/-- `startsWithChars needle hay`: the first list is an initial segment of the
second (character-by-character). -/
def startsWithChars : List Char → List Char → Bool
  | [], _ => true
  | _ :: _, [] => false
  | c :: cs, h :: hs => c = h && startsWithChars cs hs

/-- `containsChars hay needle`: some contiguous run of `hay` equals `needle`
(JS `String.prototype.includes`; the empty needle always matches). -/
def containsChars : List Char → List Char → Bool
  | [], needle => needle.isEmpty
  | h :: rest, needle => startsWithChars needle (h :: rest) || containsChars rest needle

/-- `hay.includes(needle)` on strings. -/
def strIncludes (hay needle : String) : Bool :=
  containsChars hay.toList needle.toList

/-- `pred.predicted_diseases.some(d => d.disease_name.toLowerCase().includes(searchTerm.toLowerCase()))`
from `filteredPredictions` in the history page. -/
def matchesSearch (pred : Prediction) (searchTerm : String) : Bool :=
  pred.predicted_diseases.any
    (fun d => strIncludes (toLowerStr d.disease_name) (toLowerStr searchTerm))

/-- `filterRisk === 'all' || pred.risk_level === filterRisk`. -/
def matchesFilter (pred : Prediction) (filterRisk : String) : Bool :=
  filterRisk == "all" || pred.risk_level == filterRisk

/-- `filteredPredictions = predictions.filter(pred => matchesSearch && matchesFilter)`
from the history page. -/
def filteredPredictions (predictions : List Prediction)
    (searchTerm filterRisk : String) : List Prediction :=
  predictions.filter (fun pred => matchesSearch pred searchTerm && matchesFilter pred filterRisk)

/-- History page stats card: `predictions.length`. -/
def historyTotalPredictions (predictions : List Prediction) : Nat :=
  predictions.length

/-- History page stats card: `predictions.filter(p => p.risk_level === 'high').length`. -/
def highRiskCount (predictions : List Prediction) : Nat :=
  (predictions.filter (fun p => p.risk_level == "high")).length

/-- History page stats card: `predictions.filter(p => p.risk_level === 'medium').length`. -/
def mediumRiskCount (predictions : List Prediction) : Nat :=
  (predictions.filter (fun p => p.risk_level == "medium")).length

/-- History page stats card: `predictions.filter(p => p.risk_level === 'low').length`. -/
def lowRiskCount (predictions : List Prediction) : Nat :=
  (predictions.filter (fun p => p.risk_level == "low")).length

/-- The risk-level distribution the history page derives from the record
list: all three keys are always present, each with its filter count. -/
def riskLevelDistribution (predictions : List Prediction) : List (String × Nat) :=
  [("high", highRiskCount predictions),
   ("medium", mediumRiskCount predictions),
   ("low", lowRiskCount predictions)]

/-- The `stats` object the analytics page reads for its risk pie:
`total_predictions`, `high_risk_alerts` and the backend-provided
`risk_level_distribution` mapping. -/
structure AnalyticsStats where
  total_predictions : Nat
  high_risk_alerts : Nat
  risk_level_distribution : List (String × Nat)
  deriving DecidableEq, Repr

/-- `riskDistributionData` of the analytics page (lines 126-138): the pie
data rendered under the labels High/Medium/Low Risk is
`[high_risk_alerts, Object.values(risk_level_distribution).reduce((a,b) => a+b, 0)
- high_risk_alerts, total_predictions]`; the subtraction is over JS numbers,
so the values are integers. -/
def riskDistributionData (stats : AnalyticsStats) : List (String × Int) :=
  [("High Risk", (stats.high_risk_alerts : Int)),
   ("Medium Risk",
      ((stats.risk_level_distribution.map Prod.snd).sum : Int)
        - (stats.high_risk_alerts : Int)),
   ("Low Risk", (stats.total_predictions : Int))]

/-- A browser cookie as `js-cookie` writes it: a name, a value, and the
`expires` option in days when one was given. -/
structure CookieEntry where
  name : String
  value : String
  expiresDays : Option Nat
  deriving DecidableEq, Repr

/-- `Cookies.get(name)`: value of the first cookie with that name. -/
def cookieGet (jar : List CookieEntry) (n : String) : Option String :=
  (jar.find? (fun c => c.name == n)).map (fun c => c.value)

/-- `Cookies.remove(name)`. -/
def cookieRemove (jar : List CookieEntry) (n : String) : List CookieEntry :=
  jar.filter (fun c => !(c.name == n))

/-- `Cookies.set(name, value, { expires })`: replaces any cookie of that name. -/
def cookieSet (jar : List CookieEntry) (n v : String) (expires : Option Nat) :
    List CookieEntry :=
  cookieRemove jar n ++ [⟨n, v, expires⟩]

/-- The user record of `auth-context.tsx`. -/
structure User where
  id : String
  email : String
  name : String
  role : String
  deriving DecidableEq, Repr

/-- The state owned by `AuthProvider`: the cookie jar, the in-memory user,
and the `loading` flag. -/
structure AuthState where
  cookies : List CookieEntry
  user : Option User
  loading : Bool
  deriving DecidableEq, Repr

/-- Possible resolutions of the `POST /auth/login` fetch: a 2xx body
carrying `access_token` and `user`, a non-2xx body whose `detail` field may
be absent, or a thrown network error (`TypeError` mentioning `fetch`). -/
inductive LoginResponse where
  | ok (access_token : String) (user : User)
  | httpError (detail : Option String)
  | netError
  deriving DecidableEq, Repr

/-- What a `login` call leaves behind: the new provider state, the returned
boolean, and the toast message shown. -/
structure LoginOutcome where
  state : AuthState
  success : Bool
  toast : String
  deriving DecidableEq, Repr

/-- `login(email, password)` of `auth-context.tsx`, as a transformer of the
provider state by the response: on `response.ok` it runs
`Cookies.set('auth_token', data.access_token, { expires: 7 })`, `setUser`,
`setLoading(false)` and returns `true`; on non-2xx it toasts
`error.detail || 'Login failed'` and returns `false`; on a thrown fetch
`TypeError` it toasts the fixed network message and returns `false`. -/
def login (st : AuthState) (resp : LoginResponse) : LoginOutcome :=
  match resp with
  | .ok access_token user =>
      { state := { cookies := cookieSet st.cookies "auth_token" access_token (some 7)
                   user := some user
                   loading := false }
        success := true
        toast := "Login successful!" }
  | .httpError detail =>
      { state := st, success := false, toast := detail.getD "Login failed" }
  | .netError =>
      { state := st, success := false
        toast := "Network error: Cannot reach server. Check if backend is running." }

/-- Possible resolutions of the `GET /auth/me` identity check. -/
inductive MeResponse where
  | ok (user : User)
  | httpError
  | netError
  deriving DecidableEq, Repr

/-- `checkAuth()` of `auth-context.tsx`: with no `auth_token` cookie it just
clears `loading`; otherwise, on `response.ok` it sets the user, on a non-2xx
response it removes the cookie, and the `catch` branch (network failure)
also removes the cookie; `loading` is cleared in the `finally` on every
path, and no path rethrows. -/
def checkAuth (st : AuthState) (resp : MeResponse) : AuthState :=
  match cookieGet st.cookies "auth_token" with
  | none => { st with loading := false }
  | some _ =>
      match resp with
      | .ok user => { st with user := some user, loading := false }
      | .httpError =>
          { st with cookies := cookieRemove st.cookies "auth_token", loading := false }
      | .netError =>
          { st with cookies := cookieRemove st.cookies "auth_token", loading := false }

/-- One entry of `stats.recent_predictions` as the dashboard renders it. -/
structure RecentPrediction where
  id : String
  disease : String
  confidence : ℚ
  risk : String
  date : ℚ
  deriving DecidableEq, Repr

/-- The `stats` object held by the dashboard page. -/
structure StatsData where
  total_predictions : Nat
  predictions_this_month : Nat
  high_risk_alerts : Nat
  recent_predictions : List RecentPrediction
  deriving DecidableEq, Repr

/-- The dashboard page state touched by `fetchPredictionStats`. -/
structure DashboardState where
  cookies : List CookieEntry
  user : Option User
  stats : StatsData
  predictions : List RecentPrediction
  loadingStats : Bool
  deriving DecidableEq, Repr

/-- Resolution of an authorized GET: a 2xx body, a non-2xx status with its
error text, or a thrown network error. -/
inductive ApiResponse (α : Type) where
  | ok (body : α)
  | httpError (status : Nat) (errorText : String)
  | netError
  deriving DecidableEq, Repr

/-- `fetchPredictionStats()` of the dashboard page: reads the `auth_token`
cookie; with no token it just clears the loading flag and returns; on
`response.ok` it stores the stats and the recent predictions; on a non-2xx
response it only logs; the `catch` also only logs; `finally` clears the
loading flag.  No branch touches the cookie jar or the user. -/
def fetchPredictionStats (st : DashboardState) (resp : ApiResponse StatsData) :
    DashboardState :=
  match cookieGet st.cookies "auth_token" with
  | none => { st with loadingStats := false }
  | some _ =>
      match resp with
      | .ok data =>
          { st with stats := data, predictions := data.recent_predictions
                    loadingStats := false }
      | .httpError _ _ => { st with loadingStats := false }
      | .netError => { st with loadingStats := false }

/-- The history page state touched by `fetchHistory`. -/
structure HistoryState where
  cookies : List CookieEntry
  user : Option User
  predictions : List Prediction
  loadingData : Bool
  deriving DecidableEq, Repr

/-- `fetchHistory()` of the history page: reads the `auth_token` cookie;
with no token it returns (the `finally` still clears the loading flag); on
`response.ok` it stores the records; a non-2xx response and the `catch`
branch fall through silently.  No branch touches the cookie jar or the
user. -/
def fetchHistory (st : HistoryState) (resp : ApiResponse (List Prediction)) :
    HistoryState :=
  match cookieGet st.cookies "auth_token" with
  | none => { st with loadingData := false }
  | some _ =>
      match resp with
      | .ok data => { st with predictions := data, loadingData := false }
      | .httpError _ _ => { st with loadingData := false }
      | .netError => { st with loadingData := false }

/-- A record whose only candidate is "Flu" (primary).  Confidences in the
sample records are whole rationals so that every sample evaluation is
kernel-computable. -/
def recFlu : AnalyticsRecord :=
  { predicted_diseases := some [⟨"Flu", 1⟩], overall_confidence := 1 }

/-- A second record whose only candidate is "Flu". -/
def recFlu2 : AnalyticsRecord :=
  { predicted_diseases := some [⟨"Flu", 1⟩], overall_confidence := 1 }

/-- A record whose only candidate is "Cold" (primary). -/
def recCold : AnalyticsRecord :=
  { predicted_diseases := some [⟨"Cold", 0⟩], overall_confidence := 0 }

/-- A record with primary "Flu" and a secondary candidate "Cold". -/
def recFluCold : AnalyticsRecord :=
  { predicted_diseases := some [⟨"Flu", 1⟩, ⟨"Cold", 0⟩]
    overall_confidence := 1 }

/-- A record with the `predicted_diseases` field absent. -/
def recNoDiseases : AnalyticsRecord :=
  { predicted_diseases := none, overall_confidence := 1 }

/-- A high-risk history record. -/
def predHigh1 : Prediction :=
  { id := "p1", predicted_diseases := [⟨"Flu", 1⟩]
    overall_confidence := 1, risk_level := "high", created_at := 0 }

/-- A second high-risk history record. -/
def predHigh2 : Prediction :=
  { id := "p2", predicted_diseases := [⟨"Dengue", 1⟩]
    overall_confidence := 1, risk_level := "high", created_at := 1 }

/-- A low-risk history record. -/
def predLow : Prediction :=
  { id := "p3", predicted_diseases := [⟨"Cold", 0⟩]
    overall_confidence := 0, risk_level := "low", created_at := 2 }

/-- A history record with an empty candidate list. -/
def predEmpty : Prediction :=
  { id := "p4", predicted_diseases := []
    overall_confidence := 0, risk_level := "low", created_at := 3 }

/-- Value stored for a key in a frequency object (0 when absent). -/
def getCount : List (String × Nat) → String → Nat
  | [], _ => 0
  | (k, v) :: m, n => if k = n then v else getCount m n

theorem getCount_bumpCount (m : List (String × Nat)) (n k : String) :
    getCount (bumpCount m n) k
      = if k = n then getCount m k + 1 else getCount m k := by
  induction m with
  | nil =>
      by_cases h : k = n
      · subst h; simp [bumpCount, getCount]
      · simp [bumpCount, getCount, h, Ne.symm h]
  | cons hd tl ih =>
      obtain ⟨k', v⟩ := hd
      by_cases h1 : k' = n
      · subst h1
        by_cases h2 : k = k'
        · subst h2; simp [bumpCount, getCount]
        · have h2' : ¬ k' = k := fun hh => h2 hh.symm
          simp [bumpCount, getCount, h2, h2']
      · by_cases h2 : k' = k
        · have hkn : ¬ k = n := fun hh => h1 (h2.trans hh)
          simp [bumpCount, getCount, h1, h2, hkn]
        · simp [bumpCount, getCount, h1, h2, ih]

theorem getCount_foldl_bump (ns : List String) (acc : List (String × Nat))
    (k : String) :
    getCount (ns.foldl bumpCount acc) k = getCount acc k + countName ns k := by
  induction ns generalizing acc with
  | nil => simp [countName]
  | cons n ns ih =>
      simp only [List.foldl_cons, countName, ih, getCount_bumpCount]
      by_cases h : k = n
      · subst h; simp; omega
      · have h' : ¬ n = k := fun hh => h hh.symm
        simp [h, h']

theorem map_fst_bumpCount (m : List (String × Nat)) (n : String) :
    (bumpCount m n).map Prod.fst
      = if n ∈ m.map Prod.fst then m.map Prod.fst else m.map Prod.fst ++ [n] := by
  induction m with
  | nil => simp [bumpCount]
  | cons hd tl ih =>
      obtain ⟨k, v⟩ := hd
      by_cases h : k = n
      · subst h; simp [bumpCount]
      · have h' : ¬ n = k := fun hh => h hh.symm
        by_cases hm : n ∈ tl.map Prod.fst <;>
          simp [bumpCount, h, h', hm, ih]

theorem nodup_map_fst_bumpCount (m : List (String × Nat)) (n : String)
    (h : (m.map Prod.fst).Nodup) : ((bumpCount m n).map Prod.fst).Nodup := by
  rw [map_fst_bumpCount]
  by_cases hm : n ∈ m.map Prod.fst
  · simpa [hm] using h
  · simp [hm, List.nodup_append, h]

theorem nodup_map_fst_foldl_bump (ns : List String) (acc : List (String × Nat))
    (h : (acc.map Prod.fst).Nodup) :
    (((ns.foldl bumpCount acc)).map Prod.fst).Nodup := by
  induction ns generalizing acc with
  | nil => simpa using h
  | cons n ns ih => exact ih _ (nodup_map_fst_bumpCount _ _ h)

theorem getCount_of_mem (m : List (String × Nat)) (k : String) (v : Nat)
    (hnd : (m.map Prod.fst).Nodup) (hm : (k, v) ∈ m) : getCount m k = v := by
  induction m with
  | nil => simp at hm
  | cons hd tl ih =>
      obtain ⟨k', v'⟩ := hd
      simp only [List.map_cons, List.nodup_cons] at hnd
      rcases List.mem_cons.mp hm with heq | htl
      · obtain ⟨rfl, rfl⟩ := Prod.mk.injEq .. ▸ heq
        simp [getCount]
      · by_cases h : k' = k
        · subst h
          exact absurd (List.mem_map_of_mem Prod.fst htl) hnd.1
        · simpa [getCount, h] using ih hnd.2 htl

theorem foldl_bump_names (ds : List Disease) (m : List (String × Nat)) :
    ds.foldl (fun m2 d => bumpCount m2 d.disease_name) m
      = (ds.map (fun d => d.disease_name)).foldl bumpCount m := by
  induction ds generalizing m with
  | nil => rfl
  | cons d ds ih => simp [ih]

theorem allDiseaseNames_cons (p : AnalyticsRecord) (tl : List AnalyticsRecord) :
    allDiseaseNames (p :: tl)
      = (p.predicted_diseases.getD []).map (fun d => d.disease_name)
          ++ allDiseaseNames tl := by
  simp [allDiseaseNames]

theorem diseaseCount_eq_foldl_names (history : List AnalyticsRecord) :
    diseaseCount history = (allDiseaseNames history).foldl bumpCount [] := by
  suffices h : ∀ acc : List (String × Nat),
      history.foldl
        (fun m pred =>
          match pred.predicted_diseases with
          | none => m
          | some ds => ds.foldl (fun m2 d => bumpCount m2 d.disease_name) m)
        acc
      = (allDiseaseNames history).foldl bumpCount acc from h []
  induction history with
  | nil => intro acc; simp [allDiseaseNames]
  | cons p tl ih =>
      intro acc
      rw [List.foldl_cons, allDiseaseNames_cons, List.foldl_append, ih]
      cases hp : p.predicted_diseases with
      | none => simp [hp]
      | some ds => simp [hp, foldl_bump_names]

theorem getCount_diseaseCount (history : List AnalyticsRecord) (k : String) :
    getCount (diseaseCount history) k = countName (allDiseaseNames history) k := by
  rw [diseaseCount_eq_foldl_names, getCount_foldl_bump]
  simp [getCount]

theorem nodup_map_fst_diseaseCount (history : List AnalyticsRecord) :
    ((diseaseCount history).map Prod.fst).Nodup := by
  rw [diseaseCount_eq_foldl_names]
  exact nodup_map_fst_foldl_bump _ _ (by simp)

theorem mem_diseaseCount_count (history : List AnalyticsRecord)
    (k : String) (v : Nat) (hm : (k, v) ∈ diseaseCount history) :
    v = countName (allDiseaseNames history) k := by
  rw [← getCount_diseaseCount]
  exact (getCount_of_mem _ _ _ (nodup_map_fst_diseaseCount history) hm).symm

theorem mem_insertDesc (a x : String × Nat) (l : List (String × Nat)) :
    a ∈ insertDesc x l ↔ a = x ∨ a ∈ l := by
  induction l with
  | nil => simp [insertDesc]
  | cons y ys ih =>
      by_cases h : x.2 ≤ y.2
      · simp only [insertDesc, if_pos h, List.mem_cons, ih]
        tauto
      · simp only [insertDesc, if_neg h, List.mem_cons]

theorem mem_sort_foldl (l acc : List (String × Nat)) (a : String × Nat) :
    a ∈ l.foldl (fun acc2 x => insertDesc x acc2) acc ↔ a ∈ acc ∨ a ∈ l := by
  induction l generalizing acc with
  | nil => simp
  | cons x xs ih =>
      rw [List.foldl_cons, ih, mem_insertDesc]
      simp; tauto

theorem mem_sortDescByCount (l : List (String × Nat)) (a : String × Nat) :
    a ∈ sortDescByCount l ↔ a ∈ l := by
  rw [sortDescByCount, mem_sort_foldl]; simp

theorem pairwise_insertDesc (x : String × Nat) (l : List (String × Nat))
    (h : l.Pairwise (fun a b => b.2 ≤ a.2)) :
    (insertDesc x l).Pairwise (fun a b => b.2 ≤ a.2) := by
  induction l with
  | nil => simp [insertDesc]
  | cons y ys ih =>
      rcases List.pairwise_cons.mp h with ⟨hy, hys⟩
      by_cases hle : x.2 ≤ y.2
      · rw [insertDesc, if_pos hle]
        refine List.pairwise_cons.mpr ⟨?_, ih hys⟩
        intro z hz
        rcases (mem_insertDesc z x ys).mp hz with rfl | hzys
        · exact hle
        · exact hy z hzys
      · rw [insertDesc, if_neg hle]
        refine List.pairwise_cons.mpr ⟨?_, h⟩
        intro z hz
        rcases List.mem_cons.mp hz with rfl | hzys
        · omega
        · exact le_trans (hy z hzys) (by omega)

theorem pairwise_sort_foldl (l acc : List (String × Nat))
    (h : acc.Pairwise (fun a b => b.2 ≤ a.2)) :
    (l.foldl (fun acc2 x => insertDesc x acc2) acc).Pairwise
      (fun a b => b.2 ≤ a.2) := by
  induction l generalizing acc with
  | nil => simpa using h
  | cons x xs ih => exact ih _ (pairwise_insertDesc _ _ h)

theorem pairwise_sortDescByCount (l : List (String × Nat)) :
    (sortDescByCount l).Pairwise (fun a b => b.2 ≤ a.2) :=
  pairwise_sort_foldl l [] (by simp)

/-- Claim C1, counterexample: for a single record with primary "Flu" and a
secondary candidate "Cold", `topDiseases` also counts the secondary
candidate — it yields both entries, whereas counting
`predictedDiseases[0].name` only (the claim's wording) would yield `Flu`
alone, so the claim as stated is false. -/
theorem c1_counterexample :
    topDiseases [recFluCold] = [("Flu", 1), ("Cold", 1)] ∧
    topDiseasesPrimarySpec [recFluCold] = [("Flu", 1)] ∧
    topDiseases [recFluCold] ≠ topDiseasesPrimarySpec [recFluCold] := by
  refine ⟨by decide, by decide, by decide⟩

/-- Claim C1, amended: `topDiseases` is the frequency count of every
candidate name in every record's full `predicted_diseases` list (not only
the primary), sorted descending by count with ties in first-seen order,
truncated to at most 10 entries; two records with primary "Flu" and one
with primary "Cold" (one candidate each) still yield
`[("Flu", 2), ("Cold", 1)]`, and a "Flu"/"Cold" tie keeps first-seen
order. -/
theorem c1_theorem (history : List AnalyticsRecord) :
    (topDiseases history).length ≤ 10 ∧
    (∀ p ∈ topDiseases history,
        p.2 = countName (allDiseaseNames history) p.1) ∧
    (topDiseases history).Pairwise (fun a b => b.2 ≤ a.2) ∧
    topDiseases [recFlu, recFlu2, recCold] = [("Flu", 2), ("Cold", 1)] ∧
    topDiseases [recFlu, recCold] = [("Flu", 1), ("Cold", 1)] := by
  refine ⟨?_, ?_, ?_, by decide, by decide⟩
  · simp only [topDiseases, List.length_take]
    omega
  · intro p hp
    obtain ⟨k, v⟩ := p
    have hmem : (k, v) ∈ diseaseCount history :=
      (mem_sortDescByCount _ _).mp (List.take_subset 10 _ hp)
    exact mem_diseaseCount_count _ _ _ hmem
  · exact List.Pairwise.sublist (List.take_sublist _ _) (pairwise_sortDescByCount _)

/-- Claim C1, witness: the amended theorem applied to the three-record
scenario. -/
theorem c1_witness :
    (topDiseases [recFlu, recFlu2, recCold]).length ≤ 10 :=
  (c1_theorem [recFlu, recFlu2, recCold]).1

/-- Claim C2, counterexample: with one record created exactly at `now`
(inside every window) and `predictions_this_month = 1`, the chart values
are `[0, 0, 0, 0]` with sum 0, while the spec's `bucketTrend` over the same
single record puts it in the last bucket and sums to 1 — so the code's
trend data is not the claimed time-bucketing and its counts do not sum to
the in-window record count. -/
theorem c2_counterexample :
    monthlyTrendBuckets 1 = [0, 0, 0, 0] ∧
    bucketTrendSpec [0] 0 30 4 = [0, 0, 0, 1] ∧
    (monthlyTrendBuckets 1).sum ≠ (bucketTrendSpec [0] 0 30 4).sum := by
  have h2 : bucketTrendSpec [0] 0 30 4 = [0, 0, 0, 1] := by
    norm_num [bucketTrendSpec, inTrendBucket, List.range_succ, List.filter]
    decide
  exact ⟨by decide, h2, by rw [h2]; decide⟩

/-- Claim C2, amended: the trend chart does not partition
`[now - windowDays, now]` at all; its four values are the floored fixed
shares 20%, 30%, 25%, 25% of `predictions_this_month` alone, so they sum
to at most that count (strictly less whenever flooring loses mass, e.g.
for 3 records the four values sum to 0). -/
theorem c2_theorem (m : Nat) :
    (monthlyTrendBuckets m).sum ≤ m ∧
    (monthlyTrendBuckets m).length = 4 ∧
    (monthlyTrendBuckets 3).sum = 0 := by
  refine ⟨?_, rfl, by decide⟩
  simp only [monthlyTrendBuckets, List.sum_cons, List.sum_nil]
  omega

/-- Claim C8: `processAnalyticsData` reports `totalPredictions` as the
length of the history list, and the history page's total card is the
length of its record list. -/
theorem c8_theorem (history : List AnalyticsRecord)
    (predictions : List Prediction) :
    (processAnalyticsData history).totalPredictions = history.length ∧
    historyTotalPredictions predictions = predictions.length :=
  ⟨rfl, rfl⟩

theorem foldl_add_eq_sum (l : List ℚ) (a : ℚ) :
    l.foldl (· + ·) a = a + l.sum := by
  induction l generalizing a with
  | nil => simp
  | cons x xs ih => simp [ih]; ring

/-- Claim C9: `avgConfidence` is the arithmetic mean of
`overall_confidence * 100` over the records, and exactly 0 for the empty
list — the division by the record count is guarded by the
`length > 0` test. -/
theorem c9_theorem (history : List AnalyticsRecord) :
    (processAnalyticsData history).avgConfidence
      = (if history.length = 0 then 0
         else (history.map (fun r => r.overall_confidence * 100)).sum
                / (history.length : ℚ)) ∧
    (processAnalyticsData ([] : List AnalyticsRecord)).avgConfidence = 0 := by
  constructor
  · simp only [processAnalyticsData, avgConfidence, confidenceTrend, List.length_map]
    by_cases h : history.length = 0
    · simp [h]
    · have hpos : 0 < history.length := Nat.pos_of_ne_zero h
      simp [h, hpos, foldl_add_eq_sum]
  · simp [processAnalyticsData, avgConfidence, confidenceTrend]

/-- Claim C10: a record with `predicted_diseases` absent is still counted
in `totalPredictions` and still contributes its confidence to the mean's
sample list; only the disease-frequency count (and hence `topDiseases`)
ignores it, and the aggregation is a total function, so nothing is
raised. -/
theorem c10_theorem (h1 h2 : List AnalyticsRecord) (r : AnalyticsRecord)
    (hr : r.predicted_diseases = none) :
    (processAnalyticsData (h1 ++ r :: h2)).totalPredictions
        = h1.length + h2.length + 1 ∧
    confidenceTrend (h1 ++ r :: h2)
        = confidenceTrend h1 ++ r.overall_confidence * 100 :: confidenceTrend h2 ∧
    diseaseCount (h1 ++ r :: h2) = diseaseCount (h1 ++ h2) ∧
    (processAnalyticsData (h1 ++ r :: h2)).topDiseases
        = (processAnalyticsData (h1 ++ h2)).topDiseases := by
  have hnames : allDiseaseNames (h1 ++ r :: h2) = allDiseaseNames (h1 ++ h2) := by
    simp [allDiseaseNames, hr]
  have hdc : diseaseCount (h1 ++ r :: h2) = diseaseCount (h1 ++ h2) := by
    rw [diseaseCount_eq_foldl_names, diseaseCount_eq_foldl_names, hnames]
  refine ⟨?_, by simp [confidenceTrend], hdc, ?_⟩
  · simp only [processAnalyticsData, List.length_append, List.length_cons]
    omega
  · simp only [processAnalyticsData, topDiseases, hdc]

/-- Claim C10, witness: the count conjunct applied to a concrete history
with one candidate-less record in the middle. -/
theorem c10_witness :
    (processAnalyticsData ([recFlu] ++ recNoDiseases :: [recCold])).totalPredictions
      = [recFlu].length + [recCold].length + 1 :=
  (c10_theorem [recFlu] [recCold] recNoDiseases rfl).1

theorem containsChars_nil_needle (hay : List Char) : containsChars hay [] = true := by
  induction hay <;> simp [containsChars, startsWithChars, *]

theorem strIncludes_empty_term (hay : String) :
    strIncludes hay (toLowerStr "") = true := by
  unfold strIncludes
  have h : (toLowerStr "").toList = [] := by decide
  rw [h, containsChars_nil_needle]

/-- Claim C3: on lists of spec-valid records (non-empty
`predicted_diseases`, the §3 data-model invariant) the empty search with
risk filter "all" is the identity; in general `filteredPredictions` is a
sublist of its input (order preserved, input unchanged), and a record
survives iff some candidate's lower-cased name contains the lower-cased
search term and the risk filter is "all" or equals the record's risk
level. -/
theorem c3_theorem (R : List Prediction) (t f : String) :
    ((∀ p ∈ R, p.predicted_diseases ≠ []) →
        filteredPredictions R "" "all" = R) ∧
    List.Sublist (filteredPredictions R t f) R ∧
    (∀ p, p ∈ filteredPredictions R t f ↔
        p ∈ R ∧
          (∃ d ∈ p.predicted_diseases,
            strIncludes (toLowerStr d.disease_name) (toLowerStr t) = true) ∧
          (f = "all" ∨ p.risk_level = f)) := by
  refine ⟨?_, List.filter_sublist R, ?_⟩
  · intro hne
    apply List.filter_eq_self.mpr
    intro p hp
    rcases hd : p.predicted_diseases with _ | ⟨d, ds⟩
    · exact absurd hd (hne p hp)
    · simp [matchesSearch, matchesFilter, hd, strIncludes_empty_term]
  · intro p
    simp [filteredPredictions, List.mem_filter, matchesSearch, matchesFilter,
      List.any_eq_true, Bool.and_eq_true, Bool.or_eq_true, beq_iff_eq]

/-- Claim C3, witness: the identity conjunct applied to a concrete
one-record list with a non-empty candidate list. -/
theorem c3_witness : filteredPredictions [predHigh1] "" "all" = [predHigh1] :=
  (c3_theorem [predHigh1] "" "all").1 (by decide)

theorem riskCounts_sum (R : List Prediction)
    (hlvl : ∀ p ∈ R, p.risk_level = "low" ∨ p.risk_level = "medium"
        ∨ p.risk_level = "high") :
    highRiskCount R + mediumRiskCount R + lowRiskCount R = R.length := by
  revert hlvl
  induction R with
  | nil => intro _; rfl
  | cons p tl ih =>
      intro hlvl
      have hp := hlvl p (List.mem_cons_self p tl)
      have ihs := ih (fun q hq => hlvl q (List.mem_cons_of_mem p hq))
      simp only [highRiskCount, mediumRiskCount, lowRiskCount] at ihs ⊢
      rcases hp with h | h | h <;>
        simp [List.filter_cons, h] <;> omega

/-- Claim C7, counterexample: at the claim scenario of two high-risk and
one low-risk record, a backend stats object consistent with those records
(`total_predictions = 3`, `high_risk_alerts = 2`, distribution
high 2 / medium 0 / low 1) makes the analytics page render the pie values
`[2, 1, 3]` — its Medium value 1 is not the medium-record count 0, its Low
value 3 is not the low-record count 1, and the three values sum to 6, not
`length R = 3`, so the claim is false at that cited source. -/
theorem c7_counterexample :
    riskDistributionData ⟨3, 2, [("high", 2), ("medium", 0), ("low", 1)]⟩
      = [("High Risk", 2), ("Medium Risk", 1), ("Low Risk", 3)] ∧
    mediumRiskCount [predHigh1, predHigh2, predLow] = 0 ∧
    lowRiskCount [predHigh1, predHigh2, predLow] = 1 ∧
    ((1 : Int) ≠ (0 : Int)) ∧
    ((3 : Int) ≠ (1 : Int)) ∧
    ((riskDistributionData
          ⟨3, 2, [("high", 2), ("medium", 0), ("low", 1)]⟩).map Prod.snd).sum
      ≠ (([predHigh1, predHigh2, predLow] : List Prediction).length : Int) := by
  refine ⟨by decide, by decide, by decide, by decide, by decide, by decide⟩

/-- Claim C7, amended: only the history page derives the per-level
distribution from the records — there all three keys are present, each
value is the count of records at that level, the values sum to the list
length, and the high card equals the high-record count (the 2-high/1-low
scenario gives high 2 / medium 0 / low 1).  The analytics risk pie instead
renders `[high_risk_alerts, sum(distribution) - high_risk_alerts,
total_predictions]`, so for a backend stats object consistent with the
records its Medium value is the count of all non-high records and its Low
value is the total record count. -/
theorem c7_theorem (R : List Prediction) (stats : AnalyticsStats)
    (hlvl : ∀ p ∈ R, p.risk_level = "low" ∨ p.risk_level = "medium"
        ∨ p.risk_level = "high")
    (hhigh : stats.high_risk_alerts = highRiskCount R)
    (htot : stats.total_predictions = R.length)
    (hdist : (stats.risk_level_distribution.map Prod.snd).sum = R.length) :
    highRiskCount R + mediumRiskCount R + lowRiskCount R = R.length ∧
    (riskLevelDistribution R).map Prod.fst = ["high", "medium", "low"] ∧
    riskLevelDistribution [predHigh1, predHigh2, predLow]
      = [("high", 2), ("medium", 0), ("low", 1)] ∧
    highRiskCount [predHigh1, predHigh2, predLow] = 2 ∧
    riskDistributionData stats
      = [("High Risk", (highRiskCount R : Int)),
         ("Medium Risk", (mediumRiskCount R : Int) + (lowRiskCount R : Int)),
         ("Low Risk", (R.length : Int))] := by
  have hsum := riskCounts_sum R hlvl
  refine ⟨hsum, rfl, by decide, by decide, ?_⟩
  have hmid : ((R.length : Nat) : Int) - (highRiskCount R : Int)
      = (mediumRiskCount R : Int) + (lowRiskCount R : Int) := by omega
  simp [riskDistributionData, hhigh, htot, hdist, hmid]

/-- Claim C7, witness: the theorem applied to the concrete three-record
scenario and its consistent backend stats, discharging every hypothesis. -/
theorem c7_witness :
    highRiskCount [predHigh1, predHigh2, predLow]
        + mediumRiskCount [predHigh1, predHigh2, predLow]
        + lowRiskCount [predHigh1, predHigh2, predLow]
      = ([predHigh1, predHigh2, predLow] : List Prediction).length :=
  (c7_theorem [predHigh1, predHigh2, predLow]
      ⟨3, 2, [("high", 2), ("medium", 0), ("low", 1)]⟩
      (by decide) (by decide) (by decide) (by decide)).1

theorem cookieGet_cookieRemove (jar : List CookieEntry) (n : String) :
    cookieGet (cookieRemove jar n) n = none := by
  induction jar with
  | nil => rfl
  | cons c tl ih =>
      by_cases h : c.name = n
      · have hre : cookieRemove (c :: tl) n = cookieRemove tl n := by
          simp [cookieRemove, List.filter_cons, h]
        rw [hre]
        exact ih
      · have hre : cookieRemove (c :: tl) n = c :: cookieRemove tl n := by
          simp [cookieRemove, List.filter_cons, h]
        have hfind : (c.name == n) = false := by simp [h]
        rw [hre]
        rw [cookieGet, List.find?_cons, hfind]
        exact ih

theorem cookieGet_cookieSet (jar : List CookieEntry) (n v : String)
    (e : Option Nat) : cookieGet (cookieSet jar n v e) n = some v := by
  unfold cookieSet
  induction jar with
  | nil => simp [cookieRemove, cookieGet, List.find?_cons]
  | cons c tl ih =>
      by_cases h : c.name = n
      · simp only [cookieRemove, List.filter_cons, h] at ih ⊢
        simpa using ih
      · simpa [cookieRemove, cookieGet, List.filter_cons, List.find?_cons, h] using ih

/-- Claim C4, counterexample: a dashboard state holding the persisted
token "tok" that receives a 401 authorization failure from the stats fetch
still holds "tok" afterwards — the token is not cleared, contradicting the
claim. -/
theorem c4_counterexample :
    (fetchPredictionStats
        { cookies := [⟨"auth_token", "tok", none⟩], user := none
          stats := ⟨0, 0, 0, []⟩, predictions := [], loadingStats := true }
        (.httpError 401 "unauthorized")).cookies
      = [⟨"auth_token", "tok", none⟩] ∧
    cookieGet
        (fetchPredictionStats
          { cookies := [⟨"auth_token", "tok", none⟩], user := none
            stats := ⟨0, 0, 0, []⟩, predictions := [], loadingStats := true }
          (.httpError 401 "unauthorized")).cookies "auth_token"
      = some "tok" ∧
    (some "tok" : Option String) ≠ none := by
  refine ⟨by decide, by decide, by decide⟩

/-- Claim C4, amended: `fetchPredictionStats` and `fetchHistory` never
touch the persisted token or the user on any response — authorization
failures included — so a stale token remains persisted until the Session
Manager's own `checkAuth` or `logout` clears it. -/
theorem c4_theorem (st : DashboardState) (resp : ApiResponse StatsData)
    (st2 : HistoryState) (resp2 : ApiResponse (List Prediction)) :
    (fetchPredictionStats st resp).cookies = st.cookies ∧
    (fetchPredictionStats st resp).user = st.user ∧
    (fetchHistory st2 resp2).cookies = st2.cookies ∧
    (fetchHistory st2 resp2).user = st2.user := by
  refine ⟨?_, ?_, ?_, ?_⟩ <;>
    first
      | (cases hc : cookieGet st.cookies "auth_token" <;>
          cases resp <;> simp [fetchPredictionStats, hc])
      | (cases hc : cookieGet st2.cookies "auth_token" <;>
          cases resp2 <;> simp [fetchHistory, hc])

/-- Claim C5: `login` on a 2xx response persists the returned token under
the cookie name `auth_token` with a 7-day expiry and sets the user from the
response; on a non-2xx response it returns failure, surfaces the
server-provided `detail` verbatim and leaves the whole state unchanged; on
a network failure it leaves the state unchanged and surfaces the fixed
connectivity message, which differs from the application-error default. -/
theorem c5_theorem (st : AuthState) (tok : String) (u : User) (d : String) :
    cookieGet (login st (.ok tok u)).state.cookies "auth_token" = some tok ∧
    (⟨"auth_token", tok, some 7⟩ : CookieEntry) ∈ (login st (.ok tok u)).state.cookies ∧
    (login st (.ok tok u)).state.user = some u ∧
    (login st (.ok tok u)).success = true ∧
    (login st (.httpError (some d))).state = st ∧
    (login st (.httpError (some d))).success = false ∧
    (login st (.httpError (some d))).toast = d ∧
    (login st .netError).state = st ∧
    (login st .netError).success = false ∧
    (login st .netError).toast ≠ (login st (.httpError none)).toast := by
  refine ⟨?_, ?_, rfl, rfl, rfl, rfl, rfl, rfl, rfl, by simp [login]⟩
  · simpa [login] using cookieGet_cookieSet st.cookies "auth_token" tok (some 7)
  · simp [login, cookieSet]

/-- Claim C6: `checkAuth`, run at mount (no user yet), never throws (it is
a total state transformer): with no persisted token it only clears the
loading flag, and on a non-success identity check or network failure the
persisted token is cleared and the user is absent afterwards, with the
loading flag cleared. -/
theorem c6_theorem (st : AuthState) (resp : MeResponse)
    (hmount : st.user = none) :
    (cookieGet st.cookies "auth_token" = none →
        checkAuth st resp = { st with loading := false }) ∧
    ((resp = .httpError ∨ resp = .netError) →
        cookieGet (checkAuth st resp).cookies "auth_token" = none ∧
        (checkAuth st resp).user = none ∧
        (checkAuth st resp).loading = false) := by
  constructor
  · intro h
    simp [checkAuth, h]
  · intro hresp
    cases hc : cookieGet st.cookies "auth_token" with
    | none => rcases hresp with rfl | rfl <;> simp [checkAuth, hc, hmount]
    | some tokv =>
        rcases hresp with rfl | rfl <;>
          simp [checkAuth, hc, hmount, cookieGet_cookieRemove]

/-- Claim C6, witness: the failure branch applied to a concrete state
holding a stale token. -/
theorem c6_witness :
    cookieGet
        (checkAuth
          { cookies := [⟨"auth_token", "stale", some 7⟩], user := none
            loading := true }
          .httpError).cookies "auth_token"
      = none :=
  ((c6_theorem
      { cookies := [⟨"auth_token", "stale", some 7⟩], user := none
        loading := true }
      .httpError rfl).2 (Or.inl rfl)).1

/-- Claim C2, witness: the amended theorem applied at 7 records this
month. -/
theorem c2_witness : (monthlyTrendBuckets 7).sum ≤ 7 :=
  (c2_theorem 7).1

/-- Claim C4, witness: the amended theorem applied to concrete dashboard
and history states receiving authorization failures. -/
theorem c4_witness :
    (fetchPredictionStats
        { cookies := [⟨"auth_token", "tok", none⟩], user := none
          stats := ⟨0, 0, 0, []⟩, predictions := [], loadingStats := true }
        (.httpError 401 "unauthorized")).user = none :=
  (c4_theorem
      { cookies := [⟨"auth_token", "tok", none⟩], user := none
        stats := ⟨0, 0, 0, []⟩, predictions := [], loadingStats := true }
      (.httpError 401 "unauthorized")
      { cookies := [], user := none, predictions := [], loadingData := true }
      .netError).2.1

/-- Claim C5, witness: the theorem applied to a concrete state and
response. -/
theorem c5_witness :
    (login { cookies := [], user := none, loading := true }
        (.ok "tok" ⟨"1", "a@b.com", "Ada", "user"⟩)).success = true :=
  (c5_theorem { cookies := [], user := none, loading := true }
      "tok" ⟨"1", "a@b.com", "Ada", "user"⟩ "bad password").2.2.2.1

/-- Claim C8, witness: the theorem applied to a concrete one-record
history. -/
theorem c8_witness :
    (processAnalyticsData [recFlu]).totalPredictions = [recFlu].length :=
  (c8_theorem [recFlu] []).1

/-- Claim C9, witness: the empty-history conjunct of the theorem. -/
theorem c9_witness :
    (processAnalyticsData ([] : List AnalyticsRecord)).avgConfidence = 0 :=
  (c9_theorem []).2
